import Mathlib

/-!
Shallow embedding of the answer-resolution pipeline of the directory_bot
repository (backend servers in src/backend/src/server.ts, which contains two
concatenated server variants, and the Gemini-based servers in src/unnamed).
Pure functions are translated to Lean functions; the module-level rate-limit
map and wall-clock time become explicit parameters; the remote completion
call becomes an oracle parameter giving the outcome of each attempt; calls
to Math.random become explicit random-source parameters.
-/

/-- Whitespace test used by trim. -/
def isWS (c : Char) : Bool := c.isWhitespace

/-- Trim on character lists: drop whitespace from both ends. -/
def trimChars (l : List Char) : List Char :=
  List.rdropWhile isWS (l.dropWhile isWS)

/-- Model of JavaScript String.prototype.trim. -/
def jsTrim (s : String) : String := ⟨trimChars s.data⟩

/-- Model of JavaScript String.prototype.toLowerCase on the ASCII data used here. -/
def jsToLower (s : String) : String := ⟨s.data.map Char.toLower⟩

/-- Model of question.toLowerCase().trim(), the normalization done by getExactUserData. -/
def normQ (s : String) : String := jsTrim (jsToLower s)

/-- Model of JavaScript String.prototype.includes: substring containment. -/
def strContains (s pat : String) : Bool := decide (pat.data <:+: s.data)

/-- Model of JavaScript String.prototype.startsWith. -/
def jsStartsWith (s pat : String) : Bool := pat.data.isPrefixOf s.data

/-- Model of the JavaScript expression s or-else d for strings: the empty string
is falsy, so it yields d exactly when s is empty. -/
def jsOr (s d : String) : String := if s = "" then d else s

/-- Model of Array.prototype.join with separator comma-space. -/
def joinComma (l : List String) : String := String.intercalate ", " l

/-- The AppInfo profile record (union of the fields of both server variants). -/
structure AppInfo where
  url : String
  name : String
  type : String
  description : String
  targetAudience : String
  mainFeatures : List String
  techStack : List String
  email : String
  companyName : String
  contactName : String
  location : String
  githubUrl : String
  launchDate : String
  tagline : String
  category : String
  linkedinUrl : String
  xUrl : String
  enableGithubActions : Bool
  enableLinkedinSharing : Bool
  isReleased : Bool
deriving DecidableEq, Repr

/-- Rule predicate of getExactUserData (first server variant): GitHub questions. -/
def rGithub (q : String) : Bool :=
  strContains q "github" || strContains q "repository" || strContains q "repo"

/-- Rule predicate: LinkedIn questions. -/
def rLinkedin (q : String) : Bool :=
  strContains q "linkedin" || strContains q "linked in" || strContains q "professional profile"

/-- Rule predicate: X/Twitter questions (JavaScript operator precedence: the
conjunction binds tighter than the disjunctions). -/
def rX (q : String) : Bool :=
  strContains q "twitter" || strContains q "x.com" || strContains q "x profile" ||
    (strContains q "social media" && strContains q "x")

/-- Rule predicate: product/app website questions. -/
def rSiteUrl (q : String) : Bool :=
  (strContains q "website" || strContains q "url" || strContains q "link") &&
    (strContains q "product" || strContains q "app" || strContains q "your" || strContains q "main")

/-- Rule predicate: generic URL/website questions. -/
def rGenericUrl (q : String) : Bool :=
  strContains q "website" || strContains q "url" || strContains q "web address"

/-- Rule predicate: company name questions. -/
def rCompanyName (q : String) : Bool :=
  strContains q "company" && strContains q "name"

/-- Rule predicate: company questions without the word name. -/
def rCompanyOnly (q : String) : Bool :=
  strContains q "company" && !strContains q "name"

/-- Rule predicate: contact name questions. -/
def rContactName (q : String) : Bool :=
  strContains q "contact" && strContains q "name"

/-- Rule predicate: contact questions without the word name. -/
def rContactOnly (q : String) : Bool :=
  strContains q "contact" && !strContains q "name"

/-- Rule predicate: app name questions. -/
def rAppName (q : String) : Bool :=
  strContains q "name" && !strContains q "company" && !strContains q "contact"

/-- Rule predicate: email questions. -/
def rEmail (q : String) : Bool :=
  strContains q "email" || strContains q "e-mail"

/-- Rule predicate: location questions. -/
def rLocation (q : String) : Bool :=
  strContains q "location" || strContains q "based" || strContains q "city" || strContains q "country"

/-- Rule predicate: launch date questions. -/
def rLaunch (q : String) : Bool :=
  strContains q "launch" || strContains q "date" || strContains q "released on"

/-- Rule predicate: description questions. -/
def rDescription (q : String) : Bool :=
  strContains q "description" || strContains q "about" || strContains q "what is" || strContains q "what does"

/-- Rule predicate: target audience questions. -/
def rAudience (q : String) : Bool :=
  strContains q "audience" || strContains q "target" || strContains q "users" || strContains q "customers"

/-- Rule predicate: app type questions (the conjunction binds tighter). -/
def rType (q : String) : Bool :=
  strContains q "type" || strContains q "kind of" ||
    (strContains q "category" && !strContains q "app")

/-- Rule predicate: feature questions. -/
def rFeatures (q : String) : Bool :=
  strContains q "feature" || strContains q "functionality" || strContains q "what can" || strContains q "capabilities"

/-- Rule predicate: tech stack questions. -/
def rTech (q : String) : Bool :=
  strContains q "tech" || strContains q "technology" || strContains q "stack" || strContains q "built with"

/-- Rule predicate: tagline questions. -/
def rTagline (q : String) : Bool :=
  strContains q "tagline" || strContains q "slogan" || strContains q "catchphrase"

/-- Rule predicate: category questions without the word type. -/
def rCategory (q : String) : Bool :=
  strContains q "category" && !strContains q "type"

/-- Rule predicate: released status questions. -/
def rReleased (q : String) : Bool :=
  strContains q "released" || strContains q "live" || strContains q "available" || strContains q "launched" || strContains q "public"

/-- The field matcher of the first server variant (server.ts, simple-copy
server): an ordered if chain over the rule predicates; falls through to the
empty string. -/
def getExactUserData (question : String) (appInfo : AppInfo) : String :=
  let q := normQ question
  if rGithub q then jsOr appInfo.githubUrl "" else
  if rLinkedin q then jsOr appInfo.linkedinUrl "" else
  if rX q then jsOr appInfo.xUrl "" else
  if rSiteUrl q then jsOr appInfo.url "" else
  if rGenericUrl q then jsOr appInfo.url "" else
  if rCompanyName q then jsOr appInfo.companyName "" else
  if rCompanyOnly q then jsOr appInfo.companyName "" else
  if rContactName q then jsOr appInfo.contactName "" else
  if rContactOnly q then jsOr appInfo.contactName "" else
  if rAppName q then jsOr appInfo.name "" else
  if rEmail q then jsOr appInfo.email "" else
  if rLocation q then jsOr appInfo.location "" else
  if rLaunch q then jsOr appInfo.launchDate "" else
  if rDescription q then jsOr appInfo.description "" else
  if rAudience q then jsOr appInfo.targetAudience "" else
  if rType q then jsOr appInfo.type "" else
  if rFeatures q then jsOr (joinComma appInfo.mainFeatures) "" else
  if rTech q then jsOr (joinComma appInfo.techStack) "" else
  if rTagline q then jsOr appInfo.tagline "" else
  if rCategory q then jsOr appInfo.category "" else
  if rReleased q then (if appInfo.isReleased then "Yes" else "No") else
  ""

/-- Disjunction of all rule predicates of the first variant, in order. -/
def matchesAnyRule1 (q : String) : Bool :=
  rGithub q || rLinkedin q || rX q || rSiteUrl q || rGenericUrl q ||
  rCompanyName q || rCompanyOnly q || rContactName q || rContactOnly q ||
  rAppName q || rEmail q || rLocation q || rLaunch q || rDescription q ||
  rAudience q || rType q || rFeatures q || rTech q || rTagline q ||
  rCategory q || rReleased q

/-- Rule predicate of the second server variant: name questions. -/
def sName (q : String) : Bool :=
  strContains q "name" && !strContains q "company" && !strContains q "product"

/-- Rule predicate (second variant): email. -/
def sEmail (q : String) : Bool := strContains q "email"

/-- Rule predicate (second variant): website or url. -/
def sWebsite (q : String) : Bool := strContains q "website" || strContains q "url"

/-- Rule predicate (second variant): company name. -/
def sCompanyName (q : String) : Bool := strContains q "company" && strContains q "name"

/-- Rule predicate (second variant): contact name. -/
def sContactName (q : String) : Bool := strContains q "contact" && strContains q "name"

/-- Rule predicate (second variant): location. -/
def sLocation (q : String) : Bool := strContains q "location"

/-- Rule predicate (second variant): github. -/
def sGithub (q : String) : Bool := strContains q "github" || strContains q "repository"

/-- Rule predicate (second variant): launch date. -/
def sLaunch (q : String) : Bool := strContains q "launch" || strContains q "date"

/-- Rule predicate (second variant): description. -/
def sDescription (q : String) : Bool := strContains q "description"

/-- Rule predicate (second variant): audience. -/
def sAudience (q : String) : Bool := strContains q "audience" || strContains q "target"

/-- Rule predicate (second variant): type. -/
def sType (q : String) : Bool := strContains q "type"

/-- Rule predicate (second variant): feature. -/
def sFeature (q : String) : Bool := strContains q "feature"

/-- Rule predicate (second variant): tech stack. -/
def sTech (q : String) : Bool := strContains q "tech" || strContains q "stack"

/-- The field matcher of the second server variant (server.ts, OpenRouter
server): every branch substitutes the literal Not specified for an empty
field, and the default branch returns the app name or the literal User data. -/
def getExactUserData2 (question : String) (appInfo : AppInfo) : String :=
  let q := normQ question
  if sName q then jsOr appInfo.name "Not specified" else
  if sEmail q then jsOr appInfo.email "Not specified" else
  if sWebsite q then jsOr appInfo.url "Not specified" else
  if sCompanyName q then jsOr appInfo.companyName "Not specified" else
  if sContactName q then jsOr appInfo.contactName "Not specified" else
  if sLocation q then jsOr appInfo.location "Not specified" else
  if sGithub q then jsOr appInfo.githubUrl "Not specified" else
  if sLaunch q then jsOr appInfo.launchDate "Not specified" else
  if sDescription q then jsOr appInfo.description "Not specified" else
  if sAudience q then jsOr appInfo.targetAudience "Not specified" else
  if sType q then jsOr appInfo.type "Not specified" else
  if sFeature q then jsOr (joinComma appInfo.mainFeatures) "Not specified" else
  if sTech q then jsOr (joinComma appInfo.techStack) "Not specified" else
  jsOr appInfo.name "User data"

/-- Disjunction of all rule predicates of the second variant, in order. -/
def matchesAnyRule2 (q : String) : Bool :=
  sName q || sEmail q || sWebsite q || sCompanyName q || sContactName q ||
  sLocation q || sGithub q || sLaunch q || sDescription q || sAudience q ||
  sType q || sFeature q || sTech q

/-- Batch question: a sequential id plus the raw question text. -/
structure BatchQuestion where
  id : Nat
  question : String
deriving DecidableEq, Repr

/-- Answered question as returned by the analyze-site handler. -/
structure SiteQuestion where
  id : Nat
  question : String
  answer : String
deriving DecidableEq, Repr

/-- The fallback answer generator of the simple-copy server (first variant).
The call to Math.floor(Math.random() * templates.length) is modelled by the
explicit random template index r. -/
def generateSimpleAnswer (question : String) (appInfo : AppInfo) (r : Fin 5) : String :=
  let userData := getExactUserData question appInfo
  match r with
  | 0 => userData
  | 1 => "The answer is: " ++ userData
  | 2 => "Based on your input: " ++ userData
  | 3 => "Your provided information: " ++ userData
  | 4 => userData ++ " (as you specified)"

/-- The fallback answer generator of the second server variant (same template
list, but over getExactUserData2). -/
def generateSimpleAnswer2 (question : String) (appInfo : AppInfo) (r : Fin 5) : String :=
  let userData := getExactUserData2 question appInfo
  match r with
  | 0 => userData
  | 1 => "The answer is: " ++ userData
  | 2 => "Based on your input: " ++ userData
  | 3 => "Your provided information: " ++ userData
  | 4 => userData ++ " (as you specified)"

/-- Model of the JavaScript object assignment answers[k] = v: overwrite an
existing key in place, otherwise append the new key. -/
def setAnswer (m : List (Nat × String)) (k : Nat) (v : String) : List (Nat × String) :=
  if m.any (fun p => p.1 == k) then
    m.map (fun p => if p.1 == k then (p.1, v) else p)
  else
    m ++ [(k, v)]

/-- Lookup of answers[k] on the answer-map model. -/
def lookupAnswer (m : List (Nat × String)) (k : Nat) : Option String :=
  (m.find? (fun p => p.1 == k)).map (fun p => p.2)

/-- Worker for generateSimpleBatchAnswers: the i-th question draws the i-th
random template index. -/
def genBatchGo (appInfo : AppInfo) (rnd : Nat → Fin 5) :
    List BatchQuestion → Nat → List (Nat × String) → List (Nat × String)
  | [], _, m => m
  | q :: rest, i, m =>
      genBatchGo appInfo rnd rest (i + 1)
        (setAnswer m q.id (generateSimpleAnswer q.question appInfo (rnd i)))

/-- The batch fallback generator: one answer entry per question id. -/
def generateSimpleBatchAnswers (questions : List BatchQuestion) (appInfo : AppInfo)
    (rnd : Nat → Fin 5) : List (Nat × String) :=
  genBatchGo appInfo rnd questions 0 []

/-- getBatchAnswers of the simple-copy server: always delegates to the
simple batch generator (no remote call exists in this variant). -/
def getBatchAnswers (questions : List BatchQuestion) (appInfo : AppInfo)
    (rnd : Nat → Fin 5) : List (Nat × String) :=
  generateSimpleBatchAnswers questions appInfo rnd

/-- URL validation and sanitization: trims, rejects empty, prepends the
https scheme when no scheme is present. Throwing is modelled with Except. -/
def validateAndSanitizeUrl (url : String) : Except String String :=
  let trimmed := jsTrim url
  if trimmed = "" then .error "URL cannot be empty"
  else if jsStartsWith trimmed "http://" = false ∧ jsStartsWith trimmed "https://" = false then
    .ok ("https://" ++ trimmed)
  else .ok trimmed

/-- Rate limiter timestamp lookup (the module-level Map, as an association list). -/
def rlLookup (m : List (String × Int)) (k : String) : Option Int :=
  (m.find? (fun p => p.1 == k)).map (fun p => p.2)

/-- Rate limiter timestamp store: rateLimit.set(identifier, now). -/
def rlSet (m : List (String × Int)) (k : String) (v : Int) : List (String × Int) :=
  if m.any (fun p => p.1 == k) then
    m.map (fun p => if p.1 == k then (p.1, v) else p)
  else
    m ++ [(k, v)]

/-- checkRateLimit of the second server variant and of the Gemini SDK server.
Date.now() is the explicit parameter now; the stored map is threaded in and
out. The JavaScript truthiness test on lastCall means a stored timestamp of
zero is treated like an absent entry. -/
def checkRateLimit (rl : List (String × Int)) (identifier : String) (now : Int) :
    Bool × List (String × Int) :=
  match rlLookup rl identifier with
  | some lastCall =>
      if lastCall ≠ 0 ∧ now - lastCall < 1000 then (false, rl)
      else (true, rlSet rl identifier now)
  | none => (true, rlSet rl identifier now)

/-- Directory site row loaded from the spreadsheet. -/
structure DirectorySite where
  url : String
  questions : List String
deriving DecidableEq, Repr

/-- The four default questions used when a site has no questions on file. -/
def defaultQuestions : List String :=
  ["What can we learn from their user experience design?",
   "How do they handle customer engagement?",
   "What are their key features for user retention?",
   "How do they present their value proposition?"]

/-- getQuestionsForSite of the simple-copy server, over the already-loaded
directory data (fetchAllSiteData of that variant returns the empty list when
the data file is missing or unreadable, so those failure modes appear here as
an empty sites list). -/
def getQuestionsForSite (sites : List DirectorySite) (siteUrl : String) : List String :=
  let target := jsTrim (jsToLower siteUrl)
  match sites.find? (fun d =>
      let u := jsTrim (jsToLower d.url)
      u == target || strContains u target || strContains target u) with
  | some site => if 0 < site.questions.length then site.questions else defaultQuestions
  | none => defaultQuestions

/-- Per-batch question cap. -/
def MAX_QUESTIONS_PER_BATCH : Nat := 10

/-- The analyze-site handler pipeline of the simple-copy server, from the
site question list to the answered list: cap at ten questions, assign
1-based sequential ids, resolve the batch, then zip ids, questions and
answers (the or-else on the looked-up answer draws a fresh random template,
modelled by the second random source). -/
def analyzeSite (siteQuestions : List String) (appInfo : AppInfo)
    (rndA rndB : Nat → Fin 5) : List SiteQuestion :=
  let limited := siteQuestions.take MAX_QUESTIONS_PER_BATCH
  let batchQuestions := limited.enum.map (fun p => BatchQuestion.mk (p.1 + 1) p.2)
  let batchAnswers := getBatchAnswers batchQuestions appInfo rndA
  batchQuestions.enum.map (fun p =>
    SiteQuestion.mk p.2.id p.2.question
      (match lookupAnswer batchAnswers p.2.id with
       | some a => if a = "" then generateSimpleAnswer p.2.question appInfo (rndB p.1) else a
       | none => generateSimpleAnswer p.2.question appInfo (rndB p.1)))

/-- Outcome of one remote Gemini API attempt, as seen by the catch block:
either a generated answer, or an error classified by the rate-limit test
(status 429 or a message mentioning quota or rate). -/
inductive GemOutcome where
  | ok (answer : String)
  | err (isRate : Bool) (msg : String)
deriving DecidableEq, Repr

/-- Observable result of one getGeminiAnswer run: the answer string, the
list of backoff delays slept (in ms, jitter included), and the number of
remote attempts made. -/
structure GemRun where
  answer : String
  delays : List Nat
  calls : Nat
deriving DecidableEq, Repr

/-- Retry ceiling of the Gemini servers. -/
def MAX_RETRIES : Nat := 3

/-- The retry loop of getGeminiAnswer in the Gemini SDK server (part_001).
oracle gives the outcome of the n-th remote call; jitter gives the value of
Math.random() * 1000 drawn for the n-th call. fuel is a structural bound on
loop iterations (every iteration increases attempt, so fuel = MAX_RETRIES + 1
from the entry point is never exhausted); the loop itself still exits on the
source condition attempt < MAX_RETRIES. -/
def geminiLoop (oracle : Nat → GemOutcome) (jitter : Nat → Nat) :
    Nat → Nat → Nat → GemRun
  | 0, _, _ => GemRun.mk "[Unknown Fatal Error during AI generation]" [] 0
  | fuel + 1, attempt, callIdx =>
    if attempt < MAX_RETRIES then
      match oracle callIdx with
      | .ok a => GemRun.mk a [] 1
      | .err isRate msg =>
        if isRate then
          let delayA := 2 ^ attempt * 1000 + jitter callIdx
          let a1 := attempt + 1
          if a1 < MAX_RETRIES then
            let r := geminiLoop oracle jitter fuel a1 (callIdx + 1)
            GemRun.mk r.answer (delayA :: r.delays) (r.calls + 1)
          else
            if a1 = MAX_RETRIES - 1 then GemRun.mk ("[Error: " ++ msg ++ "]") [] 1
            else
              let a2 := a1 + 1
              let r := geminiLoop oracle jitter fuel a2 (callIdx + 1)
              GemRun.mk r.answer (2 ^ a2 * 1000 :: r.delays) (r.calls + 1)
        else
          if attempt = MAX_RETRIES - 1 then GemRun.mk ("[Error: " ++ msg ++ "]") [] 1
          else
            let a1 := attempt + 1
            let r := geminiLoop oracle jitter fuel a1 (callIdx + 1)
            GemRun.mk r.answer (2 ^ a1 * 1000 :: r.delays) (r.calls + 1)
    else GemRun.mk "[Unknown Fatal Error during AI generation]" [] 0

/-- getGeminiAnswer of the Gemini SDK server (part_001): the initialization
guard and the local rate-limit guard may throw (modelled by Except.error);
past the guards, the retry loop runs and never throws. -/
def getGeminiAnswer (initialized : Bool) (rl : List (String × Int)) (question : String)
    (now : Int) (oracle : Nat → GemOutcome) (jitter : Nat → Nat) :
    Except String (GemRun × List (String × Int)) :=
  if initialized = false then .error "Gemini AI is not properly initialized."
  else
    let res := checkRateLimit rl question now
    if res.1 = false then .error "Rate limit exceeded. Please wait before making another request."
    else .ok (geminiLoop oracle jitter (MAX_RETRIES + 1) 0 0, res.2)

/-- Sample profile used by witnesses, following the example in the spec. -/
def sampleAppInfo : AppInfo :=
  { url := "https://acme.com", name := "Acme", type := "saas",
    description := "A project management tool", targetAudience := "Remote teams",
    mainFeatures := ["boards", "sync"], techStack := ["ts", "node"],
    email := "contact@acme.com", companyName := "Acme Inc",
    contactName := "Jo Doe", location := "Berlin", githubUrl := "https://github.com/acme",
    launchDate := "2024-01-01", tagline := "Do more", category := "productivity",
    linkedinUrl := "https://linkedin.com/company/acme", xUrl := "https://x.com/acme",
    enableGithubActions := false, enableLinkedinSharing := false, isReleased := true }

/-- Profile with every field empty, used by counterexamples. -/
def emptyAppInfo : AppInfo :=
  { url := "", name := "", type := "", description := "", targetAudience := "",
    mainFeatures := [], techStack := [], email := "", companyName := "",
    contactName := "", location := "", githubUrl := "", launchDate := "",
    tagline := "", category := "", linkedinUrl := "", xUrl := "",
    enableGithubActions := false, enableLinkedinSharing := false, isReleased := false }

/-! Helper lemmas. -/

theorem jsOr_ne (s d : String) (hd : d ≠ "") : jsOr s d ≠ "" := by
  unfold jsOr
  split
  · exact hd
  · assumption

theorem jsOr_empty_right (s : String) : jsOr s "" = s := by
  unfold jsOr
  split
  · rename_i h
    exact h.symm
  · rfl

theorem ne_empty_of_data (s : String) (h : s.data ≠ []) : s ≠ "" := by
  intro he
  exact h (by simp [he])

theorem append_left_ne_empty (pre u : String) (h : pre.data ≠ []) : pre ++ u ≠ "" := by
  intro he
  have hd : (pre ++ u).data = [] := by simp [he]
  rw [String.data_append] at hd
  exact h (List.append_eq_nil.mp hd).1

theorem append_right_ne_empty (u post : String) (h : post.data ≠ []) : u ++ post ≠ "" := by
  intro he
  have hd : (u ++ post).data = [] := by simp [he]
  rw [String.data_append] at hd
  exact h (List.append_eq_nil.mp hd).2

theorem ite_ne_empty {c : Prop} [Decidable c] {a b : String} (ha : a ≠ "") (hb : b ≠ "") :
    (if c then a else b) ≠ "" := by
  split
  · exact ha
  · exact hb

theorem getExactUserData2_ne_empty (q : String) (info : AppInfo) :
    getExactUserData2 q info ≠ "" := by
  simp only [getExactUserData2]
  repeat (first | (apply jsOr_ne; decide) | apply ite_ne_empty)

/-! Claim C4: rate limiter. -/

/-- C4: for every key, a call less than 1000 ms after the last recorded call
returns false and leaves the map unchanged; otherwise (the window elapsed, or
the key was never seen) the call records now and returns true. The stored
timestamp is assumed positive and not later than now, as produced by any real
clock (a stored timestamp of exactly 0 would be falsy in JavaScript). -/
theorem checkRateLimit_spec (rl : List (String × Int)) (k : String) (now : Int) :
    (∀ t, rlLookup rl k = some t → 0 < t → t ≤ now →
      ((now - t < 1000 → checkRateLimit rl k now = (false, rl)) ∧
       (1000 ≤ now - t → checkRateLimit rl k now = (true, rlSet rl k now)))) ∧
    (rlLookup rl k = none → checkRateLimit rl k now = (true, rlSet rl k now)) := by
  constructor
  · intro t ht hpos hle
    unfold checkRateLimit
    rw [ht]
    dsimp only
    constructor
    · intro hlt
      rw [if_pos]
      exact ⟨by omega, hlt⟩
    · intro hge
      rw [if_neg]
      intro hc
      omega
  · intro h
    unfold checkRateLimit
    rw [h]

/-- C4 witness: a second call 500 ms after an allowed call is rejected and the
map is unchanged; a call 1500 ms after is allowed and re-stamped; a first call
for an unseen key is allowed. -/
theorem checkRateLimit_spec_witness :
    checkRateLimit [("site", 1000)] "site" 1500 = (false, [("site", 1000)]) ∧
    checkRateLimit [("site", 1000)] "site" 2500 = (true, rlSet [("site", 1000)] "site" 2500) ∧
    checkRateLimit [] "site" 5 = (true, rlSet [] "site" 5) :=
  ⟨((checkRateLimit_spec [("site", 1000)] "site" 1500).1 1000 rfl (by decide) (by decide)).1
      (by decide),
   ((checkRateLimit_spec [("site", 1000)] "site" 2500).1 1000 rfl (by decide) (by decide)).2
      (by decide),
   (checkRateLimit_spec [] "site" 5).2 rfl⟩

/-! Claim C6: the fallback answer generator. -/

/-- C6 counterexample: on the first server variant, a question matching no
rule yields an empty matched field, and the bare-echo template (random index
0) then returns the empty string, contradicting the claim that the fallback
generator never returns an empty string. -/
theorem generateSimpleAnswer_empty_cex :
    generateSimpleAnswer "zzz" emptyAppInfo 0 = "" := by decide

/-- C6 amended: the generator is total (never throws); the second variant
always returns a non-empty string (its matcher substitutes Not specified);
the first variant returns a non-empty string whenever the template index is
not the bare echo, or the matched field is non-empty. -/
theorem generateSimpleAnswer_nonempty (q : String) (info : AppInfo) (r : Fin 5) :
    generateSimpleAnswer2 q info r ≠ "" ∧
    (r ≠ 0 → generateSimpleAnswer q info r ≠ "") ∧
    (getExactUserData q info ≠ "" → generateSimpleAnswer q info r ≠ "") := by
  refine ⟨?_, ?_, ?_⟩
  · fin_cases r
    · exact getExactUserData2_ne_empty q info
    · exact append_left_ne_empty "The answer is: " _ (by decide)
    · exact append_left_ne_empty "Based on your input: " _ (by decide)
    · exact append_left_ne_empty "Your provided information: " _ (by decide)
    · exact append_right_ne_empty _ " (as you specified)" (by decide)
  · intro hr
    fin_cases r
    · exact absurd rfl hr
    · exact append_left_ne_empty "The answer is: " _ (by decide)
    · exact append_left_ne_empty "Based on your input: " _ (by decide)
    · exact append_left_ne_empty "Your provided information: " _ (by decide)
    · exact append_right_ne_empty _ " (as you specified)" (by decide)
  · intro hu
    fin_cases r
    · exact hu
    · exact append_left_ne_empty "The answer is: " _ (by decide)
    · exact append_left_ne_empty "Based on your input: " _ (by decide)
    · exact append_left_ne_empty "Your provided information: " _ (by decide)
    · exact append_right_ne_empty _ " (as you specified)" (by decide)

/-- C6 witness: concrete non-empty results, discharging the template-index
hypothesis at index 2 and the non-empty-field hypothesis at an email question. -/
theorem generateSimpleAnswer_nonempty_witness :
    generateSimpleAnswer2 "zzz" sampleAppInfo 2 ≠ "" ∧
    generateSimpleAnswer "zzz" sampleAppInfo 2 ≠ "" ∧
    generateSimpleAnswer "Your Email" sampleAppInfo 0 ≠ "" :=
  ⟨(generateSimpleAnswer_nonempty "zzz" sampleAppInfo 2).1,
   (generateSimpleAnswer_nonempty "zzz" sampleAppInfo 2).2.1 (by decide),
   (generateSimpleAnswer_nonempty "Your Email" sampleAppInfo 0).2.2 (by decide)⟩

/-! Claim C7: the field matcher default branch. -/

/-- C7 counterexample: in the second server variant, a question matching no
rule does not produce the empty string: with an empty profile it yields the
literal User data. -/
theorem getExactUserData2_no_match_cex :
    matchesAnyRule2 (normQ "zzz") = false ∧
    getExactUserData2 "zzz" emptyAppInfo = "User data" := by decide

/-- C7 amended: when no rule matches, the first variant returns the empty
string, while the second variant returns the app name or, when that is
empty, the literal User data. -/
theorem getExactUserData_no_match (q : String) (info : AppInfo) :
    (matchesAnyRule1 (normQ q) = false → getExactUserData q info = "") ∧
    (matchesAnyRule2 (normQ q) = false → getExactUserData2 q info = jsOr info.name "User data") := by
  constructor
  · intro h
    simp only [matchesAnyRule1, Bool.or_eq_false_iff, and_assoc] at h
    obtain ⟨h1, h2, h3, h4, h5, h6, h7, h8, h9, h10, h11, h12, h13, h14, h15, h16, h17, h18,
      h19, h20, h21⟩ := h
    simp only [getExactUserData, h1, h2, h3, h4, h5, h6, h7, h8, h9, h10, h11, h12, h13, h14,
      h15, h16, h17, h18, h19, h20, h21, Bool.false_eq_true, if_false]
  · intro h
    simp only [matchesAnyRule2, Bool.or_eq_false_iff, and_assoc] at h
    obtain ⟨g1, g2, g3, g4, g5, g6, g7, g8, g9, g10, g11, g12, g13⟩ := h
    simp only [getExactUserData2, g1, g2, g3, g4, g5, g6, g7, g8, g9, g10, g11, g12, g13,
      Bool.false_eq_true, if_false]

/-- C7 witness: the question zzz matches no rule; the first variant returns
the empty string on it, the second returns the app-name fallback. -/
theorem getExactUserData_no_match_witness :
    matchesAnyRule1 (normQ "zzz") = false ∧
    getExactUserData "zzz" sampleAppInfo = "" ∧
    getExactUserData2 "zzz" sampleAppInfo = jsOr sampleAppInfo.name "User data" :=
  ⟨by decide,
   (getExactUserData_no_match "zzz" sampleAppInfo).1 (by decide),
   (getExactUserData_no_match "zzz" sampleAppInfo).2 (by decide)⟩

/-! Claim C9: getQuestionsForSite always returns a non-empty list. -/

/-- C9: for every loaded directory list and every site url, the returned
question list is non-empty (so the 404 branch of the analyze-site handler,
guarded by an emptiness test, is unreachable), and when the data could not
be loaded (empty directory list, as produced by fetchAllSiteData on a
missing or unreadable file) the four default questions are returned. -/
theorem getQuestionsForSite_nonempty (sites : List DirectorySite) (siteUrl : String) :
    0 < (getQuestionsForSite sites siteUrl).length ∧
    getQuestionsForSite [] siteUrl = defaultQuestions := by
  constructor
  · simp only [getQuestionsForSite]
    split
    · split
      · assumption
      · decide
    · decide
  · rfl

/-! Claim C5: the company-name rule. -/

/-- C5 counterexample: a question containing both company and name is not
always resolved to companyName, because earlier rules run first: the
question company name github matches the GitHub rule and resolves to the
github url instead. -/
theorem getExactUserData_company_name_cex :
    strContains (normQ "company name github") "company" = true ∧
    strContains (normQ "company name github") "name" = true ∧
    getExactUserData "company name github" sampleAppInfo ≠ sampleAppInfo.companyName := by
  decide

/-- C5 amended: a question containing both company and name resolves to
companyName (and never to the name field) provided none of the five earlier
rules (github, linkedin, x/twitter, product url, generic url) matches. -/
theorem getExactUserData_company_name (question : String) (info : AppInfo)
    (hG : rGithub (normQ question) = false)
    (hL : rLinkedin (normQ question) = false)
    (hX : rX (normQ question) = false)
    (hS : rSiteUrl (normQ question) = false)
    (hU : rGenericUrl (normQ question) = false)
    (hC : rCompanyName (normQ question) = true) :
    getExactUserData question info = info.companyName := by
  simp only [getExactUserData, hG, hL, hX, hS, hU, hC, Bool.false_eq_true, if_false, if_true]
  exact jsOr_empty_right _

/-- C5 witness: a plain company-name question resolves to companyName. -/
theorem getExactUserData_company_name_witness :
    rCompanyName (normQ "What is your company name?") = true ∧
    getExactUserData "What is your company name?" sampleAppInfo = sampleAppInfo.companyName :=
  ⟨by decide,
   getExactUserData_company_name "What is your company name?" sampleAppInfo
     (by decide) (by decide) (by decide) (by decide) (by decide) (by decide)⟩

/-! Claim C1: completeness of the batch answer map. -/

theorem setAnswer_fresh (m : List (Nat × String)) (k : Nat) (v : String)
    (h : k ∉ m.map Prod.fst) : setAnswer m k v = m ++ [(k, v)] := by
  unfold setAnswer
  rw [if_neg]
  intro hc
  rw [List.any_eq_true] at hc
  obtain ⟨p, hp, he⟩ := hc
  exact h (List.mem_map.mpr ⟨p, hp, by simpa using he⟩)

theorem genBatchGo_keys (info : AppInfo) (rnd : Nat → Fin 5) :
    ∀ (qs : List BatchQuestion) (i : Nat) (m : List (Nat × String)),
      (qs.map (fun q => q.id)).Nodup →
      (∀ q ∈ qs, q.id ∉ m.map Prod.fst) →
      (genBatchGo info rnd qs i m).map Prod.fst =
        m.map Prod.fst ++ qs.map (fun q => q.id) := by
  intro qs
  induction qs with
  | nil =>
      intro i m _ _
      simp [genBatchGo]
  | cons q rest ih =>
      intro i m hnd hfresh
      have hq : q.id ∉ m.map Prod.fst := hfresh q (List.mem_cons_self q rest)
      have hset : setAnswer m q.id (generateSimpleAnswer q.question info (rnd i)) =
          m ++ [(q.id, generateSimpleAnswer q.question info (rnd i))] :=
        setAnswer_fresh _ _ _ hq
      rw [List.map_cons] at hnd
      have hnd' : (rest.map (fun q => q.id)).Nodup := hnd.of_cons
      have hhead : q.id ∉ rest.map (fun q => q.id) := (List.nodup_cons.mp hnd).1
      have hfresh' : ∀ q' ∈ rest,
          q'.id ∉ (m ++ [(q.id, generateSimpleAnswer q.question info (rnd i))]).map Prod.fst := by
        intro q' hq'
        rw [List.map_append]
        simp only [List.mem_append, List.map_cons, List.map_nil, List.mem_singleton]
        rintro (hin | hin)
        · exact hfresh q' (List.mem_cons_of_mem _ hq') hin
        · exact hhead (hin ▸ List.mem_map.mpr ⟨q', hq', rfl⟩)
      simp only [genBatchGo, hset]
      rw [ih (i + 1) (m ++ [(q.id, generateSimpleAnswer q.question info (rnd i))]) hnd' hfresh']
      simp [List.map_append, List.append_assoc]

/-- C1: for a batch whose question ids are pairwise distinct (as always
assigned by the orchestrator), the batch resolver returns an answer map whose
key list is exactly the list of input question ids — one entry per input id,
no other ids — so its size equals the number of input questions. In the
simple-copy server getBatchAnswers always delegates to
generateSimpleBatchAnswers, regardless of any upstream concern, so the
property holds unconditionally of remote failure modes. -/
theorem generateSimpleBatchAnswers_complete (qs : List BatchQuestion) (info : AppInfo)
    (rnd : Nat → Fin 5) (hids : (qs.map (fun q => q.id)).Nodup) :
    (getBatchAnswers qs info rnd).map Prod.fst = qs.map (fun q => q.id) ∧
    (getBatchAnswers qs info rnd).length = qs.length := by
  have h := genBatchGo_keys info rnd qs 0 [] hids (by simp)
  simp only [List.map_nil, List.nil_append] at h
  have hmain : (getBatchAnswers qs info rnd).map Prod.fst = qs.map (fun q => q.id) := h
  refine ⟨hmain, ?_⟩
  have hlen : ((getBatchAnswers qs info rnd).map Prod.fst).length =
      (qs.map (fun q => q.id)).length := by rw [hmain]
  simpa using hlen

/-- C1 witness: a two-question batch yields exactly the keys 1 and 2 and an
answer map of size two. -/
theorem generateSimpleBatchAnswers_complete_witness :
    (([⟨1, "Your Name"⟩, ⟨2, "Your Email"⟩] : List BatchQuestion).map (fun q => q.id)).Nodup ∧
    (getBatchAnswers [⟨1, "Your Name"⟩, ⟨2, "Your Email"⟩] sampleAppInfo (fun _ => 0)).map
      Prod.fst = [1, 2] ∧
    (getBatchAnswers [⟨1, "Your Name"⟩, ⟨2, "Your Email"⟩] sampleAppInfo (fun _ => 0)).length
      = 2 := by
  refine ⟨by decide, ?_, ?_⟩
  · simpa using (generateSimpleBatchAnswers_complete
      [⟨1, "Your Name"⟩, ⟨2, "Your Email"⟩] sampleAppInfo (fun _ => 0) (by decide)).1
  · simpa using (generateSimpleBatchAnswers_complete
      [⟨1, "Your Name"⟩, ⟨2, "Your Email"⟩] sampleAppInfo (fun _ => 0) (by decide)).2

/-! Claim C8: the analyze pipeline caps, orders and numbers questions. -/

/-- C8: the answered list returned by the analyze-site pipeline has length
min(n, 10); its k-th entry (0-based, k below the cap) carries id k+1 and the
k-th input question, so order is preserved and questions beyond the cap are
dropped. -/
theorem analyzeSite_order (qs : List String) (info : AppInfo) (rA rB : Nat → Fin 5) :
    (analyzeSite qs info rA rB).length = min qs.length MAX_QUESTIONS_PER_BATCH ∧
    ∀ k q, qs[k]? = some q → k < MAX_QUESTIONS_PER_BATCH →
      ∃ a, (analyzeSite qs info rA rB)[k]? = some (SiteQuestion.mk (k + 1) q a) := by
  constructor
  · simp [analyzeSite, Nat.min_comm]
  · intro k q hq hk
    simp only [analyzeSite, List.getElem?_map, List.getElem?_enum, List.getElem?_take,
      if_pos hk, hq, Option.map_some]
    exact ⟨_, rfl⟩

/-- C8 witness: three questions produce three entries; the second entry has
id 2 and the second input question. -/
theorem analyzeSite_order_witness :
    (analyzeSite ["a", "b", "c"] sampleAppInfo (fun _ => 0) (fun _ => 0)).length = min 3 10 ∧
    ∃ a, (analyzeSite ["a", "b", "c"] sampleAppInfo (fun _ => 0) (fun _ => 0))[1]? =
      some (SiteQuestion.mk 2 "b" a) := by
  constructor
  · simpa using (analyzeSite_order ["a", "b", "c"] sampleAppInfo (fun _ => 0) (fun _ => 0)).1
  · simpa using (analyzeSite_order ["a", "b", "c"] sampleAppInfo (fun _ => 0) (fun _ => 0)).2
      1 "b" rfl (by decide)

/-! Claim C2: the only propagated error is the rate-limit rejection. -/

theorem setAnswer_keys_sub (m : List (Nat × String)) (k j : Nat) (v : String)
    (h : j ∈ m.map Prod.fst) : j ∈ (setAnswer m k v).map Prod.fst := by
  unfold setAnswer
  split
  · have heq : (m.map (fun p => if p.1 == k then (p.1, v) else p)).map Prod.fst =
        m.map Prod.fst := by
      rw [List.map_map]
      refine List.map_congr_left ?_
      intro p _
      dsimp only [Function.comp]
      split <;> rfl
    rw [heq]
    exact h
  · rw [List.map_append]
    exact List.mem_append_left _ h

theorem setAnswer_key_mem (m : List (Nat × String)) (k : Nat) (v : String) :
    k ∈ (setAnswer m k v).map Prod.fst := by
  unfold setAnswer
  split
  · rename_i hc
    rw [List.any_eq_true] at hc
    obtain ⟨p, hp, he⟩ := hc
    have heq : (m.map (fun p => if p.1 == k then (p.1, v) else p)).map Prod.fst =
        m.map Prod.fst := by
      rw [List.map_map]
      refine List.map_congr_left ?_
      intro r _
      dsimp only [Function.comp]
      split <;> rfl
    rw [heq]
    exact List.mem_map.mpr ⟨p, hp, by simpa using he⟩
  · rw [List.map_append]
    exact List.mem_append_right _ (by simp)

theorem genBatchGo_keys_mono (info : AppInfo) (rnd : Nat → Fin 5) :
    ∀ (qs : List BatchQuestion) (i : Nat) (m : List (Nat × String)) (j : Nat),
      j ∈ m.map Prod.fst → j ∈ (genBatchGo info rnd qs i m).map Prod.fst := by
  intro qs
  induction qs with
  | nil => intro i m j h; simpa [genBatchGo] using h
  | cons q rest ih =>
      intro i m j h
      simp only [genBatchGo]
      exact ih (i + 1) _ j (setAnswer_keys_sub _ _ _ _ h)

theorem genBatchGo_mem (info : AppInfo) (rnd : Nat → Fin 5) :
    ∀ (qs : List BatchQuestion) (i : Nat) (m : List (Nat × String)) (bq : BatchQuestion),
      bq ∈ qs → bq.id ∈ (genBatchGo info rnd qs i m).map Prod.fst := by
  intro qs
  induction qs with
  | nil => intro i m bq h; simp at h
  | cons q rest ih =>
      intro i m bq h
      rcases List.mem_cons.mp h with hq | hq
      · subst hq
        simp only [genBatchGo]
        exact genBatchGo_keys_mono info rnd rest (i + 1) _ bq.id (setAnswer_key_mem _ _ _)
      · simp only [genBatchGo]
        exact ih (i + 1) _ bq hq

theorem lookup_of_mem_keys (m : List (Nat × String)) (k : Nat)
    (h : k ∈ m.map Prod.fst) : ∃ a, lookupAnswer m k = some a := by
  induction m with
  | nil => simp at h
  | cons p rest ih =>
      by_cases hp : (p.1 == k) = true
      · exact ⟨p.2, by simp [lookupAnswer, List.find?_cons, hp]⟩
      · have h2 : k = p.1 ∨ k ∈ rest.map Prod.fst := by
          rw [List.map_cons] at h
          exact List.mem_cons.mp h
        rcases h2 with hk | hk
        · exact absurd (by simpa using hk.symm) hp
        · obtain ⟨a, ha⟩ := ih hk
          refine ⟨a, ?_⟩
          simpa [lookupAnswer, List.find?_cons, hp] using ha

/-- C2: with the SDK initialized (guaranteed by startup validation), the only
error getGeminiAnswer can propagate is the rate-limit rejection raised when
the local limiter rejects the key; whenever the limiter admits the call, the
function returns an answer (every transport or model failure is absorbed by
the retry loop into an answer string). In the simple-copy server,
getBatchAnswers never fails and yields an answer entry for every requested
question id. -/
theorem getGeminiAnswer_only_rate_error (rl : List (String × Int)) (q : String) (now : Int)
    (oracle : Nat → GemOutcome) (jitter : Nat → Nat) (info : AppInfo)
    (qs : List BatchQuestion) (rnd : Nat → Fin 5) :
    (∀ e, getGeminiAnswer true rl q now oracle jitter = .error e →
       e = "Rate limit exceeded. Please wait before making another request." ∧
       (checkRateLimit rl q now).1 = false) ∧
    ((checkRateLimit rl q now).1 = true →
       ∃ run rl2, getGeminiAnswer true rl q now oracle jitter = .ok (run, rl2)) ∧
    (∀ bq ∈ qs, ∃ a, lookupAnswer (getBatchAnswers qs info rnd) bq.id = some a) := by
  refine ⟨?_, ?_, ?_⟩
  · intro e he
    by_cases hc : (checkRateLimit rl q now).1 = false
    · simp only [getGeminiAnswer, if_neg (by decide : ¬(true = false)), if_pos hc] at he
      exact ⟨(Except.error.injEq _ _).mp he.symm, hc⟩
    · simp only [getGeminiAnswer, if_neg (by decide : ¬(true = false)), if_neg hc] at he
      exact Except.noConfusion he
  · intro hc
    refine ⟨geminiLoop oracle jitter (MAX_RETRIES + 1) 0 0, (checkRateLimit rl q now).2, ?_⟩
    simp only [getGeminiAnswer, if_neg (by decide : ¬(true = false)),
      if_neg (by simp [hc] : ¬((checkRateLimit rl q now).1 = false))]
  · intro bq hbq
    exact lookup_of_mem_keys _ _ (genBatchGo_mem info rnd qs 0 [] bq hbq)

/-- C2 witness: a rejected key propagates exactly the rate-limit message; an
admitted key returns an answer; a batch lookup finds every requested id. -/
theorem getGeminiAnswer_only_rate_error_witness :
    (checkRateLimit [("q", 100)] "q" 500).1 = false ∧
    (checkRateLimit [] "q" 500).1 = true ∧
    (∃ run rl2, getGeminiAnswer true [] "q" 500 (fun _ => GemOutcome.ok "fine") (fun _ => 0) =
       .ok (run, rl2)) ∧
    (∃ a, lookupAnswer (getBatchAnswers [⟨1, "Your Name"⟩] sampleAppInfo (fun _ => 0)) 1 =
       some a) :=
  ⟨((getGeminiAnswer_only_rate_error [("q", 100)] "q" 500 (fun _ => GemOutcome.ok "fine")
      (fun _ => 0) sampleAppInfo [⟨1, "Your Name"⟩] (fun _ => 0)).1 _ rfl).2,
   by decide,
   (getGeminiAnswer_only_rate_error [] "q" 500 (fun _ => GemOutcome.ok "fine")
      (fun _ => 0) sampleAppInfo [⟨1, "Your Name"⟩] (fun _ => 0)).2.1 (by decide),
   (getGeminiAnswer_only_rate_error [] "q" 500 (fun _ => GemOutcome.ok "fine")
      (fun _ => 0) sampleAppInfo [⟨1, "Your Name"⟩] (fun _ => 0)).2.2 ⟨1, "Your Name"⟩
      (by decide)⟩

/-! Claim C3: retry, backoff and exhaustion behavior. -/

/-- C3 counterexample: after a non-retryable failure on attempt 0, the loop
waits 2000 ms, not 2 to the power attempt times 1000 = 1000 ms as the claim
states (the code increments attempt before computing that delay; rate-limit
retries additionally add random jitter). -/
theorem getGeminiAnswer_backoff_cex :
    (geminiLoop (fun n => if n = 0 then .err false "boom" else .ok "fine") (fun _ => 0)
       (MAX_RETRIES + 1) 0 0).delays = [2000] ∧
    (2000 : Nat) ≠ 2 ^ 0 * 1000 := by decide

theorem geminiLoop_calls_le (oracle : Nat → GemOutcome) (jitter : Nat → Nat) :
    ∀ (fuel attempt c : Nat),
      (geminiLoop oracle jitter fuel attempt c).calls ≤ MAX_RETRIES - attempt := by
  intro fuel
  induction fuel with
  | zero => intro a c; simp [geminiLoop]
  | succ f ih =>
      intro a c
      simp only [geminiLoop, MAX_RETRIES] at *
      split
      · rename_i ha
        cases oracle c with
        | ok ans => simp only []; omega
        | err isRate msg =>
            simp only []
            split
            · split
              · have := ih (a + 1) (c + 1)
                simp only []
                omega
              · split
                · simp only []; omega
                · have := ih (a + 1 + 1) (c + 1)
                  simp only []
                  omega
            · split
              · simp only []; omega
              · have := ih (a + 1) (c + 1)
                simp only []
                omega
      · simp only []; omega

/-- C3 amended: the loop makes at most MAX_RETRIES remote attempts and never
propagates an error. An immediate success returns the remote answer with no
delay. Rate-limited failures wait 2 to the power attempt times 1000 plus the
random jitter (computed before the attempt counter is incremented); a success
on the last admissible attempt then returns the remote answer, not a
fallback. Three rate-limited failures sleep the two backoff delays plus a
final 16000 ms and return the fatal-error marker answer. Non-retryable
failures wait 2 to the power (attempt+1) times 1000 with no jitter, and a
third consecutive one returns a bracketed error-marker answer built from the
last message — the degradation is an error-echo string, not the field-echo
fallback generator. -/
theorem getGeminiAnswer_backoff (jitter : Nat → Nat) (ans m0 m1 m2 : String) :
    (∀ oracle : Nat → GemOutcome,
       (geminiLoop oracle jitter (MAX_RETRIES + 1) 0 0).calls ≤ MAX_RETRIES) ∧
    (∀ oracle : Nat → GemOutcome, oracle 0 = .ok ans →
       geminiLoop oracle jitter (MAX_RETRIES + 1) 0 0 = GemRun.mk ans [] 1) ∧
    (∀ oracle : Nat → GemOutcome,
       oracle 0 = .err true m0 → oracle 1 = .err true m1 → oracle 2 = .ok ans →
       geminiLoop oracle jitter (MAX_RETRIES + 1) 0 0 =
         GemRun.mk ans [1000 + jitter 0, 2000 + jitter 1] 3) ∧
    (∀ oracle : Nat → GemOutcome,
       oracle 0 = .err true m0 → oracle 1 = .err true m1 → oracle 2 = .err true m2 →
       geminiLoop oracle jitter (MAX_RETRIES + 1) 0 0 =
         GemRun.mk "[Unknown Fatal Error during AI generation]"
           [1000 + jitter 0, 2000 + jitter 1, 16000] 3) ∧
    (∀ oracle : Nat → GemOutcome, oracle 0 = .err false m0 → oracle 1 = .ok ans →
       geminiLoop oracle jitter (MAX_RETRIES + 1) 0 0 = GemRun.mk ans [2000] 2) ∧
    (∀ oracle : Nat → GemOutcome,
       oracle 0 = .err false m0 → oracle 1 = .err false m1 → oracle 2 = .err false m2 →
       geminiLoop oracle jitter (MAX_RETRIES + 1) 0 0 =
         GemRun.mk ("[Error: " ++ m2 ++ "]") [2000, 4000] 3) := by
  refine ⟨?_, ?_, ?_, ?_, ?_, ?_⟩
  · intro oracle
    have := geminiLoop_calls_le oracle jitter (MAX_RETRIES + 1) 0 0
    simpa using this
  · intro oracle h0
    simp [geminiLoop, h0, MAX_RETRIES]
  · intro oracle h0 h1 h2
    norm_num [geminiLoop, h0, h1, h2, MAX_RETRIES]
  · intro oracle h0 h1 h2
    norm_num [geminiLoop, h0, h1, h2, MAX_RETRIES]
  · intro oracle h0 h1
    norm_num [geminiLoop, h0, h1, MAX_RETRIES]
  · intro oracle h0 h1 h2
    norm_num [geminiLoop, h0, h1, h2, MAX_RETRIES]

/-- C3 witness: two 429s then a success on the 3-attempt ceiling returns the
success answer with the two backoff delays, and at most three calls are made. -/
theorem getGeminiAnswer_backoff_witness :
    (geminiLoop (fun n => if n < 2 then .err true "rate" else .ok "done") (fun _ => 0)
       (MAX_RETRIES + 1) 0 0).calls ≤ MAX_RETRIES ∧
    geminiLoop (fun n => if n < 2 then .err true "rate" else .ok "done") (fun _ => 0)
       (MAX_RETRIES + 1) 0 0 = GemRun.mk "done" [1000 + 0, 2000 + 0] 3 :=
  ⟨(getGeminiAnswer_backoff (fun _ => 0) "done" "rate" "rate" "rate").1 _,
   (getGeminiAnswer_backoff (fun _ => 0) "done" "rate" "rate" "rate").2.2.1 _
     rfl rfl rfl⟩

/-! Claim C10: validateAndSanitizeUrl normalizes and is idempotent. -/

theorem dropWhile_head_false :
    ∀ (l : List Char) (a : Char) (t : List Char),
      l.dropWhile isWS = a :: t → isWS a = false := by
  intro l
  induction l with
  | nil => intro a t h; simp [List.dropWhile] at h
  | cons b l2 ih =>
      intro a t h
      rw [List.dropWhile_cons] at h
      by_cases hb : isWS b = true
      · rw [if_pos hb] at h
        exact ih a t h
      · rw [if_neg hb] at h
        cases h
        simpa using hb

theorem trimChars_head_false (l : List Char) (a : Char) (t : List Char)
    (h : trimChars l = a :: t) : isWS a = false := by
  have hpre : a :: t <+: l.dropWhile isWS := by
    rw [← h]
    exact List.rdropWhile_prefix isWS (l.dropWhile isWS)
  obtain ⟨r, hr⟩ := hpre
  refine dropWhile_head_false l a (t ++ r) ?_
  rw [← hr]
  simp

theorem dropWhile_trimChars (l : List Char) :
    (trimChars l).dropWhile isWS = trimChars l := by
  cases h : trimChars l with
  | nil => simp
  | cons a t =>
      rw [List.dropWhile_cons, if_neg (by simp [trimChars_head_false l a t h])]

theorem rdropWhile_trimChars (l : List Char) :
    List.rdropWhile isWS (trimChars l) = trimChars l := by
  unfold trimChars
  exact List.rdropWhile_idempotent isWS _

theorem trimChars_idem (l : List Char) : trimChars (trimChars l) = trimChars l := by
  have h : trimChars (trimChars l) =
      List.rdropWhile isWS ((trimChars l).dropWhile isWS) := rfl
  rw [h, dropWhile_trimChars, rdropWhile_trimChars]

theorem dropWhile_append_of_ne_nil (p : Char → Bool) (l1 l2 : List Char)
    (h1 : l1 ≠ []) (h2 : l1.dropWhile p = l1) : (l1 ++ l2).dropWhile p = l1 ++ l2 := by
  cases l1 with
  | nil => exact absurd rfl h1
  | cons a t =>
      rw [List.dropWhile_cons] at h2
      by_cases ha : p a = true
      · rw [if_pos ha] at h2
        have hlen : (t.dropWhile p).length ≤ t.length :=
          (List.IsSuffix.sublist (List.dropWhile_suffix p)).length_le
        have := congrArg List.length h2
        simp at this
        omega
      · rw [List.cons_append, List.dropWhile_cons, if_neg ha]

theorem rdropWhile_append_of_ne_nil (p : Char → Bool) (l1 l2 : List Char)
    (h2 : l2 ≠ []) (hr : List.rdropWhile p l2 = l2) :
    List.rdropWhile p (l1 ++ l2) = l1 ++ l2 := by
  have hdw : l2.reverse.dropWhile p = l2.reverse := by
    have := congrArg List.reverse hr
    simpa [List.rdropWhile] using this
  unfold List.rdropWhile
  rw [List.reverse_append,
    dropWhile_append_of_ne_nil p l2.reverse l1.reverse (by simpa using h2) hdw]
  simp

theorem trimChars_append_scheme (t : List Char) (ht : trimChars t = t) (hne : t ≠ []) :
    trimChars ("https://".data ++ t) = "https://".data ++ t := by
  have hrd : List.rdropWhile isWS t = t := by
    conv_lhs => rw [← ht]
    rw [rdropWhile_trimChars, ht]
  have hd : ("https://".data ++ t).dropWhile isWS = "https://".data ++ t :=
    dropWhile_append_of_ne_nil isWS "https://".data t (by decide) (by decide)
  unfold trimChars
  rw [hd]
  exact rdropWhile_append_of_ne_nil isWS "https://".data t hne hrd

theorem eq_empty_of_data_nil (s : String) (h : s.data = []) : s = "" := by
  cases s
  simp_all

theorem jsTrim_idem (s : String) : jsTrim (jsTrim s) = jsTrim s := by
  show (⟨trimChars (trimChars s.data)⟩ : String) = ⟨trimChars s.data⟩
  rw [trimChars_idem]

theorem isPrefixOf_append_self (l r : List Char) : l.isPrefixOf (l ++ r) = true := by
  induction l with
  | nil => simp [List.isPrefixOf]
  | cons a t ih => simp [List.isPrefixOf, ih]

/-- C10: on every input whose trimmed form is non-empty, the sanitizer
succeeds, its output starts with one of the two schemes, and it is
idempotent: applied to its own output it returns the output unchanged. -/
theorem validateAndSanitizeUrl_spec (url : String) (h : jsTrim url ≠ "") :
    ∃ out, validateAndSanitizeUrl url = .ok out ∧
      (jsStartsWith out "http://" = true ∨ jsStartsWith out "https://" = true) ∧
      validateAndSanitizeUrl out = .ok out := by
  have hdata : (jsTrim url).data ≠ [] := fun hd => h (eq_empty_of_data_nil _ hd)
  by_cases hsw : jsStartsWith (jsTrim url) "http://" = false ∧
      jsStartsWith (jsTrim url) "https://" = false
  · refine ⟨"https://" ++ jsTrim url, ?_, ?_, ?_⟩
    · simp only [validateAndSanitizeUrl, if_neg h, if_pos hsw]
    · right
      unfold jsStartsWith
      rw [String.data_append]
      exact isPrefixOf_append_self _ _
    · have htr : jsTrim ("https://" ++ jsTrim url) = "https://" ++ jsTrim url := by
        have hdapp : ("https://" ++ jsTrim url).data = "https://".data ++ (jsTrim url).data :=
          String.data_append _ _
        show (⟨trimChars ("https://" ++ jsTrim url).data⟩ : String) = "https://" ++ jsTrim url
        rw [hdapp]
        show (⟨trimChars ("https://".data ++ (jsTrim url).data)⟩ : String) =
          "https://" ++ jsTrim url
        rw [trimChars_append_scheme (jsTrim url).data (trimChars_idem url.data) hdata]
        refine String.ext ?_
        rw [String.data_append]
      have hne2 : jsTrim ("https://" ++ jsTrim url) ≠ "" := by
        rw [htr]
        refine append_left_ne_empty _ _ (by decide)
      have hstart : jsStartsWith (jsTrim ("https://" ++ jsTrim url)) "https://" = true := by
        rw [htr]
        unfold jsStartsWith
        rw [String.data_append]
        exact isPrefixOf_append_self _ _
      simp only [validateAndSanitizeUrl, if_neg hne2]
      rw [if_neg (by simp [hstart]), htr]
  · refine ⟨jsTrim url, ?_, ?_, ?_⟩
    · simp only [validateAndSanitizeUrl, if_neg h, if_neg hsw]
    · cases h1 : jsStartsWith (jsTrim url) "http://" with
      | false =>
          cases h2 : jsStartsWith (jsTrim url) "https://" with
          | false => exact absurd ⟨h1, h2⟩ hsw
          | true => exact Or.inr rfl
      | true => exact Or.inl rfl
    · have hne2 : jsTrim (jsTrim url) ≠ "" := by
        rw [jsTrim_idem]
        exact h
      have hsw2 : ¬(jsStartsWith (jsTrim (jsTrim url)) "http://" = false ∧
          jsStartsWith (jsTrim (jsTrim url)) "https://" = false) := by
        rw [jsTrim_idem]
        exact hsw
      simp only [validateAndSanitizeUrl, if_neg hne2, if_neg hsw2]
      rw [jsTrim_idem]

/-- C10 witness: a bare domain is trimmed and given the https scheme, after
which the sanitizer fixes it. -/
theorem validateAndSanitizeUrl_spec_witness :
    jsTrim " example.com " ≠ "" ∧
    (∃ out, validateAndSanitizeUrl " example.com " = .ok out ∧
      (jsStartsWith out "http://" = true ∨ jsStartsWith out "https://" = true) ∧
      validateAndSanitizeUrl out = .ok out) :=
  ⟨by decide, validateAndSanitizeUrl_spec " example.com " (by decide)⟩

